import Mathlib

set_option autoImplicit false

/-!
Verification of the JournalServer ingestion engine against its specification.

The definitions below are a shallow embedding of the Python sources:

* src/jserver/entries/primitives.py        (EntryType)
* src/jserver/storage/entry_manager.py     (EntryManager)
* src/jserver/entries/entry.py             (EntryABC identity resolution)
* src/jserver/entries/types/generic_entries.py (TextEntry, GenericFileEntry)
* src/jserver/utils/notion.py              (parse_date_block, create_notion_entry,
                                            split_page_blocks, resolve_monotonicity)
* src/jserver/input_handlers/input_handler_manager.py (interval tick, file watch)

Stateful code is modelled by explicit state passing; calls into the storage
collaborators (MongoDB document store and S3 file store) are recorded in an
event trace, and their possible external failures are injected through a
Boolean oracle consumed one entry per fallible call (an exhausted oracle means
success, modelling the normal failure-free run).
-/

namespace JServer

/-- EntryType from src/jserver/entries/primitives.py (class EntryType). -/
inductive EntryType where
  | text
  | generic_file
  | text_file
  | image_file
  | video_file
  | audio_file
  | pdf_file
  | geolocation
  | accelerometer
  | heart_rate
  | sleep_state
  | fitbit_activity
deriving DecidableEq, Repr

/-- Typed failures raised by the storage layer and the entry manager
(src/jserver/exceptions/__init__.py): EntryAlreadyExistsException,
EntryNotFoundException, plus an injected external store failure standing for
any exception raised inside a storage collaborator call. -/
inductive JError where
  | alreadyExists
  | notFound
  | storeFailure
deriving DecidableEq, Repr

/-- Database record as the EntryManager sees it: the computed entry_uuid (a
pure function of the entry that never depends on mutation_count, see
src/jserver/entries/entry.py and generic_entries.py, so it is carried as a
field here), the entry_type tag, data.file_id (meaningful for file-type
entries, the local path before upload or the store id after), the
mutation_count, and the remaining serialized fields, opaque to the manager. -/
structure DbEntry where
  uuid : String
  entry_type : EntryType
  file_id : String
  mutation_count : Int
  payload : String
deriving DecidableEq, Repr

instance : Inhabited DbEntry := ⟨⟨"", .text, "", 0, ""⟩⟩

/-- Document store contents (the MongoDB collection), keyed by entry_uuid. -/
abbrev DB := List DbEntry

/-- DatabaseManager.pull_entry as a lookup: the first record with the given
uuid, none when absent (mongo_database_manager.py raises
EntryNotFoundException, which get_entry_if_exists converts to None). -/
def DB.pull? (db : DB) (uuid : String) : Option DbEntry :=
  db.find? (fun e => e.uuid == uuid)

/-- DatabaseManager.insert_entry: appends the record. -/
def DB.insert (db : DB) (e : DbEntry) : DB := db ++ [e]

/-- DatabaseManager.delete_entry: removes the records with the given uuid. -/
def DB.erase (db : DB) (uuid : String) : DB := db.filter (fun e => e.uuid != uuid)

/-- Events recorded for each completed storage-collaborator call, used to
state ordering properties of EntryManager methods. -/
inductive StoreEv where
  | pullEntry (uuid : String) (found : Bool)
  | insertFileStore (path : String) (newId : String)
  | insertEntryDb (uuid : String)
  | deleteEntryDb (uuid : String)
  | deleteFileStore (fileId : String)
deriving DecidableEq, Repr

/-- State threaded through EntryManager calls: the document store, the set of
durable payload ids in the file store, the trace of completed storage calls,
and the failure oracle (one Boolean per fallible storage call; exhausted means
the call succeeds). -/
structure StoreState where
  db : DB
  files : List String
  trace : List StoreEv
  oracle : List Bool
deriving Repr

def StoreState.takeOracle (s : StoreState) : Bool × StoreState :=
  (s.oracle.headD true, { s with oracle := s.oracle.tail })

def StoreState.log (s : StoreState) (ev : StoreEv) : StoreState :=
  { s with trace := s.trace ++ [ev] }

/-- ResourceManager.insert_file (resource_manager.py): uploads the local file
to the file store and returns the new durable file id. The id produced by the
store is modelled as a deterministic tag of the local path. -/
def rmInsertFile (s : StoreState) (path : String) : StoreState × Except JError String :=
  let (ok, s) := s.takeOracle
  if ok then
    let newId := "stored-" ++ path
    ((({ s with files := s.files ++ [newId] }).log (.insertFileStore path newId)), .ok newId)
  else (s, .error .storeFailure)

/-- ResourceManager.insert_entry: writes the metadata record to the document
store. -/
def rmInsertEntry (s : StoreState) (e : DbEntry) : StoreState × Except JError Unit :=
  let (ok, s) := s.takeOracle
  if ok then ((({ s with db := s.db.insert e }).log (.insertEntryDb e.uuid)), .ok ())
  else (s, .error .storeFailure)

/-- ResourceManager.delete_entry: removes the metadata record. -/
def rmDeleteEntry (s : StoreState) (uuid : String) : StoreState × Except JError Unit :=
  let (ok, s) := s.takeOracle
  if ok then ((({ s with db := s.db.erase uuid }).log (.deleteEntryDb uuid)), .ok ())
  else (s, .error .storeFailure)

/-- ResourceManager.delete_file: removes the durable payload. -/
def rmDeleteFile (s : StoreState) (fileId : String) : StoreState × Except JError Unit :=
  let (ok, s) := s.takeOracle
  if ok then
    ((({ s with files := s.files.filter (fun f => f != fileId) }).log (.deleteFileStore fileId)),
      .ok ())
  else (s, .error .storeFailure)

/-- EntryManager.get_entry_if_exists (entry_manager.py lines 83-91): pulls the
entry, converting EntryNotFoundException into None. -/
def EntryManager.get_entry_if_exists (s : StoreState) (uuid : String) :
    StoreState × Option DbEntry :=
  let r := s.db.pull? uuid
  (s.log (.pullEntry uuid r.isSome), r)

/-- EntryManager.insert_entry (entry_manager.py lines 58-81). Returns True
when the entry was mutated and False when it was freshly created; raises
EntryAlreadyExistsException when the identity exists and mutate is False. On
mutation the incoming record's mutation_count is set to the stored value plus
one, the old record is deleted, and the updated record is inserted (entry_uuid
never depends on mutation_count, so the identity is unchanged). -/
def EntryManager.insert_entry (s : StoreState) (entry : DbEntry) (mutate : Bool) :
    StoreState × Except JError Bool :=
  let (s, existing) := EntryManager.get_entry_if_exists s entry.uuid
  match existing with
  | some ex =>
    if mutate then
      let entry' := { entry with mutation_count := ex.mutation_count + 1 }
      match rmDeleteEntry s entry.uuid with
      | (s, .error e) => (s, .error e)
      | (s, .ok _) =>
        match rmInsertEntry s entry' with
        | (s, .error e) => (s, .error e)
        | (s, .ok _) => (s, .ok true)
    else (s, .error .alreadyExists)
  | none =>
    match rmInsertEntry s entry with
    | (s, .error e) => (s, .error e)
    | (s, .ok _) => (s, .ok false)

/-- EntryManager.insert_file_entry (entry_manager.py lines 93-116). Step 1
checks existence, step 2 raises when the identity exists without mutate
permission, step 3 uploads the local payload, step 4 rewrites the record's
file id to the durable one, step 5 inserts the metadata through insert_entry,
and step 6 deletes the prior durable payload only when the identity already
existed and delete_old_file is set. -/
def EntryManager.insert_file_entry (s : StoreState) (file_entry : DbEntry)
    (mutate : Bool) (delete_old_file : Bool) : StoreState × Except JError Bool :=
  let (s, existing) := EntryManager.get_entry_if_exists s file_entry.uuid
  if existing.isSome && !mutate then (s, .error .alreadyExists)
  else
    let file_path := file_entry.file_id
    match rmInsertFile s file_path with
    | (s, .error e) => (s, .error e)
    | (s, .ok new_file_id) =>
      let file_entry := { file_entry with file_id := new_file_id }
      match EntryManager.insert_entry s file_entry mutate with
      | (s, .error e) => (s, .error e)
      | (s, .ok _) =>
        match existing with
        | some ex =>
          if delete_old_file then
            match rmDeleteFile s ex.file_id with
            | (s, .error e) => (s, .error e)
            | (s, .ok _) => (s, .ok true)
          else (s, .ok true)
        | none => (s, .ok false)

/-- Deletion dispatch table from EntryManager.__init__ (entry_manager.py lines
18-31): file-type entries are deleted through delete_file_entry, all other
entry types through delete_non_file_entry. -/
def is_file_entry_type : EntryType → Bool
  | .generic_file | .text_file | .image_file | .video_file | .audio_file | .pdf_file => true
  | .text | .geolocation | .accelerometer | .heart_rate | .sleep_state | .fitbit_activity => false

/-- EntryManager.delete_non_file_entry (entry_manager.py lines 137-141). -/
def EntryManager.delete_non_file_entry (s : StoreState) (entry : DbEntry) :
    StoreState × Except JError Unit :=
  rmDeleteEntry s entry.uuid

/-- EntryManager.delete_file_entry (entry_manager.py lines 143-149): first
removes the file from the file store, then deletes the database record. -/
def EntryManager.delete_file_entry (s : StoreState) (entry : DbEntry) :
    StoreState × Except JError Unit :=
  match rmDeleteFile s entry.file_id with
  | (s, .error e) => (s, .error e)
  | (s, .ok _) => rmDeleteEntry s entry.uuid

/-- EntryManager.delete_entry (entry_manager.py lines 127-135): raises
EntryNotFoundException when the identity is absent, otherwise dispatches on
the stored entry's type. -/
def EntryManager.delete_entry (s : StoreState) (uuid : String) :
    StoreState × Except JError Unit :=
  let (s, existing) := EntryManager.get_entry_if_exists s uuid
  match existing with
  | none => (s, .error .notFound)
  | some entry =>
    if is_file_entry_type entry.entry_type then EntryManager.delete_file_entry s entry
    else EntryManager.delete_non_file_entry s entry

theorem DB.pull?_append (db1 db2 : DB) (u : String) :
    DB.pull? (db1 ++ db2) u = (DB.pull? db1 u).or (DB.pull? db2 u) :=
  List.find?_append

theorem DB.pull?_singleton_self (e : DbEntry) : DB.pull? [e] e.uuid = some e := by
  simp [DB.pull?, List.find?]

theorem DB.pull?_erase_self (db : DB) (u : String) : DB.pull? (DB.erase db u) u = none := by
  induction db with
  | nil => rfl
  | cons a t ih =>
    by_cases h : a.uuid = u
    · simp [DB.erase, DB.pull?, List.filter_cons, h, ih]
    · simp [DB.erase, DB.pull?, List.filter_cons, List.find?_cons, h, ih]

/-- C2: inserting an entry whose entry_uuid is absent stores it and reports
Created (insert_entry returns False); re-inserting the same identity with
mutate disallowed fails with EntryAlreadyExistsException; re-inserting with
mutate allowed overwrites the record, reports Mutated (returns True), and the
stored mutation_count is the previously stored mutation_count plus exactly 1.
The runs use an empty failure oracle, so every storage call succeeds. -/
theorem insert_entry_created_then_mutated
    (db : DB) (files : List String) (e e2 : DbEntry)
    (habs : db.pull? e.uuid = none) (huuid : e2.uuid = e.uuid) :
    ∃ s1 : StoreState,
      EntryManager.insert_entry ⟨db, files, [], []⟩ e true = (s1, .ok false) ∧
      s1.db.pull? e.uuid = some e ∧
      (EntryManager.insert_entry s1 e2 false).2 = .error .alreadyExists ∧
      ∃ s2 : StoreState,
        EntryManager.insert_entry s1 e2 true = (s2, .ok true) ∧
        s2.db.pull? e.uuid = some { e2 with mutation_count := e.mutation_count + 1 } := by
  have h1 : EntryManager.insert_entry ⟨db, files, [], []⟩ e true =
      (⟨db ++ [e], files, [.pullEntry e.uuid false, .insertEntryDb e.uuid], []⟩, .ok false) := by
    simp [EntryManager.insert_entry, EntryManager.get_entry_if_exists, habs, rmInsertEntry,
      StoreState.takeOracle, StoreState.log, DB.insert]
  refine ⟨_, h1, ?_, ?_, ?_⟩
  · show DB.pull? (db ++ [e]) e.uuid = some e
    simp [DB.pull?_append, habs, DB.pull?_singleton_self]
  · have hfound : DB.pull? (db ++ [e]) e2.uuid = some e := by
      rw [huuid]; simp [DB.pull?_append, habs, DB.pull?_singleton_self]
    simp [EntryManager.insert_entry, EntryManager.get_entry_if_exists, hfound]
  · have hfound : DB.pull? (db ++ [e]) e2.uuid = some e := by
      rw [huuid]; simp [DB.pull?_append, habs, DB.pull?_singleton_self]
    have h2 : EntryManager.insert_entry
        ⟨db ++ [e], files, [.pullEntry e.uuid false, .insertEntryDb e.uuid], []⟩ e2 true =
        (⟨DB.erase (db ++ [e]) e2.uuid ++ [{ e2 with mutation_count := e.mutation_count + 1 }],
          files,
          [.pullEntry e.uuid false, .insertEntryDb e.uuid, .pullEntry e2.uuid true,
            .deleteEntryDb e2.uuid, .insertEntryDb e2.uuid], []⟩, .ok true) := by
      simp [EntryManager.insert_entry, EntryManager.get_entry_if_exists, hfound, rmDeleteEntry,
        rmInsertEntry, StoreState.takeOracle, StoreState.log, DB.insert]
    refine ⟨_, h2, ?_⟩
    show DB.pull?
        (DB.erase (db ++ [e]) e2.uuid ++ [{ e2 with mutation_count := e.mutation_count + 1 }])
        e.uuid = _
    rw [DB.pull?_append, ← huuid, DB.pull?_erase_self]
    have : ({ e2 with mutation_count := e.mutation_count + 1 } : DbEntry).uuid = e2.uuid := rfl
    simpa [Option.or] using DB.pull?_singleton_self { e2 with mutation_count := e.mutation_count + 1 }

/-- Witness for insert_entry_created_then_mutated at a concrete input: empty
database, a text record with uuid u and mutation_count 0, re-inserted with a
changed payload. -/
theorem insert_entry_created_then_mutated_witness :
    DB.pull? ([] : DB) (DbEntry.mk "u" .text "" 0 "p").uuid = none ∧
    (∃ s1 : StoreState,
      EntryManager.insert_entry ⟨[], [], [], []⟩ (DbEntry.mk "u" .text "" 0 "p") true =
        (s1, .ok false) ∧
      s1.db.pull? (DbEntry.mk "u" .text "" 0 "p").uuid = some (DbEntry.mk "u" .text "" 0 "p") ∧
      (EntryManager.insert_entry s1 (DbEntry.mk "u" .text "" 7 "q") false).2 =
        .error .alreadyExists ∧
      ∃ s2 : StoreState,
        EntryManager.insert_entry s1 (DbEntry.mk "u" .text "" 7 "q") true = (s2, .ok true) ∧
        s2.db.pull? (DbEntry.mk "u" .text "" 0 "p").uuid =
          some { DbEntry.mk "u" .text "" 7 "q" with
                  mutation_count := (DbEntry.mk "u" .text "" 0 "p").mutation_count + 1 }) :=
  ⟨rfl, insert_entry_created_then_mutated [] [] _ _ rfl rfl⟩

/-- Run-shape catalogue for insert_file_entry: every run either performs no
payload deletion at all, or succeeds with the full mutate trace in which the
old payload deletion is the final storage operation. -/
theorem insert_file_entry_run_shape
    (db : DB) (files : List String) (oracle : List Bool) (fe : DbEntry)
    (mutate delete_old : Bool) :
    (∀ fid, StoreEv.deleteFileStore fid ∉
        (EntryManager.insert_file_entry ⟨db, files, [], oracle⟩ fe mutate delete_old).1.trace) ∨
    ((EntryManager.insert_file_entry ⟨db, files, [], oracle⟩ fe mutate delete_old).2 =
        .ok true ∧
      ∃ old, DB.pull? db fe.uuid = some old ∧
        (EntryManager.insert_file_entry ⟨db, files, [], oracle⟩ fe mutate delete_old).1.trace =
          [.pullEntry fe.uuid true, .insertFileStore fe.file_id ("stored-" ++ fe.file_id),
            .pullEntry fe.uuid true, .deleteEntryDb fe.uuid, .insertEntryDb fe.uuid,
            .deleteFileStore old.file_id]) := by
  rcases hpull : DB.pull? db fe.uuid with _ | ex
  · left
    intro fid
    rcases ho1 : oracle.head?.getD true
    · simp [EntryManager.insert_file_entry, EntryManager.insert_entry,
        EntryManager.get_entry_if_exists, rmInsertFile, rmInsertEntry, rmDeleteEntry, rmDeleteFile,
        StoreState.takeOracle, StoreState.log, DB.insert, hpull, ho1]
    · rcases ho2 : oracle[1]?.getD true <;>
        simp [EntryManager.insert_file_entry, EntryManager.insert_entry,
          EntryManager.get_entry_if_exists, rmInsertFile, rmInsertEntry, rmDeleteEntry,
          rmDeleteFile, StoreState.takeOracle, StoreState.log, DB.insert, hpull, ho1, ho2]
  · cases mutate
    · left
      intro fid
      simp [EntryManager.insert_file_entry, EntryManager.insert_entry,
        EntryManager.get_entry_if_exists, StoreState.log, hpull]
    · rcases ho1 : oracle.head?.getD true
      · left
        intro fid
        simp [EntryManager.insert_file_entry, EntryManager.insert_entry,
          EntryManager.get_entry_if_exists, rmInsertFile, rmInsertEntry, rmDeleteEntry,
          rmDeleteFile, StoreState.takeOracle, StoreState.log, DB.insert, hpull, ho1]
      · rcases ho2 : oracle[1]?.getD true
        · left
          intro fid
          simp [EntryManager.insert_file_entry, EntryManager.insert_entry,
            EntryManager.get_entry_if_exists, rmInsertFile, rmInsertEntry, rmDeleteEntry,
            rmDeleteFile, StoreState.takeOracle, StoreState.log, DB.insert, hpull, ho1, ho2]
        · rcases ho3 : oracle[2]?.getD true
          · left
            intro fid
            simp [EntryManager.insert_file_entry, EntryManager.insert_entry,
              EntryManager.get_entry_if_exists, rmInsertFile, rmInsertEntry, rmDeleteEntry,
              rmDeleteFile, StoreState.takeOracle, StoreState.log, DB.insert, hpull, ho1, ho2, ho3]
          · cases delete_old
            · left
              intro fid
              simp [EntryManager.insert_file_entry, EntryManager.insert_entry,
                EntryManager.get_entry_if_exists, rmInsertFile, rmInsertEntry, rmDeleteEntry,
                rmDeleteFile, StoreState.takeOracle, StoreState.log, DB.insert, hpull, ho1, ho2,
                ho3]
            · rcases ho4 : oracle[3]?.getD true
              · left
                intro fid
                simp [EntryManager.insert_file_entry, EntryManager.insert_entry,
                  EntryManager.get_entry_if_exists, rmInsertFile, rmInsertEntry, rmDeleteEntry,
                  rmDeleteFile, StoreState.takeOracle, StoreState.log, DB.insert, hpull, ho1, ho2,
                  ho3, ho4]
              · right
                constructor
                · simp [EntryManager.insert_file_entry, EntryManager.insert_entry,
                    EntryManager.get_entry_if_exists, rmInsertFile, rmInsertEntry, rmDeleteEntry,
                    rmDeleteFile, StoreState.takeOracle, StoreState.log, DB.insert, hpull, ho1,
                    ho2, ho3, ho4]
                · refine ⟨ex, rfl, ?_⟩
                  simp [EntryManager.insert_file_entry, EntryManager.insert_entry,
                    EntryManager.get_entry_if_exists, rmInsertFile, rmInsertEntry, rmDeleteEntry,
                    rmDeleteFile, StoreState.takeOracle, StoreState.log, DB.insert, hpull, ho1,
                    ho2, ho3, ho4]

/-- C3: in every run of insert_file_entry, for every state, failure oracle and
flags, the old durable payload is deleted only as the final storage operation,
strictly after both the new durable payload write (insertFileStore) and the
new metadata write (insertEntryDb) have succeeded, and only in a run that
completes successfully; whenever the run fails, no payload deletion occurs. -/
theorem insert_file_entry_payload_swap_safety
    (db : DB) (files : List String) (oracle : List Bool) (fe : DbEntry)
    (mutate delete_old : Bool) :
    (∀ fid,
      StoreEv.deleteFileStore fid ∈
        (EntryManager.insert_file_entry ⟨db, files, [], oracle⟩ fe mutate delete_old).1.trace →
      (EntryManager.insert_file_entry ⟨db, files, [], oracle⟩ fe mutate delete_old).2 =
        .ok true ∧
      (EntryManager.insert_file_entry ⟨db, files, [], oracle⟩ fe mutate delete_old).1.trace =
        [.pullEntry fe.uuid true, .insertFileStore fe.file_id ("stored-" ++ fe.file_id),
          .pullEntry fe.uuid true, .deleteEntryDb fe.uuid, .insertEntryDb fe.uuid,
          .deleteFileStore fid]) ∧
    (∀ err fid,
      (EntryManager.insert_file_entry ⟨db, files, [], oracle⟩ fe mutate delete_old).2 =
        .error err →
      StoreEv.deleteFileStore fid ∉
        (EntryManager.insert_file_entry ⟨db, files, [], oracle⟩ fe mutate delete_old).1.trace) := by
  rcases insert_file_entry_run_shape db files oracle fe mutate delete_old with hno | ⟨hok, old, _, htr⟩
  · exact ⟨fun fid hmem => absurd hmem (hno fid), fun err fid _ hmem => hno fid hmem⟩
  · refine ⟨fun fid hmem => ?_, fun err fid herr _ => ?_⟩
    · rw [htr] at hmem
      simp only [List.mem_cons, List.not_mem_nil, or_false] at hmem
      rcases hmem with h | h | h | h | h | h
      · exact absurd h (by simp)
      · exact absurd h (by simp)
      · exact absurd h (by simp)
      · exact absurd h (by simp)
      · exact absurd h (by simp)
      · have h' : fid = old.file_id := by injection h
        exact ⟨hok, by rw [htr, h']⟩
    · rw [hok] at herr
      exact absurd herr (by simp)

/-- Witness for insert_file_entry_payload_swap_safety: a store holding an
image entry under uuid u with payload old-file, re-inserted with a new local
payload, mutate and delete_old_file enabled, and a failure-free oracle. -/
theorem insert_file_entry_payload_swap_safety_witness :
    StoreEv.deleteFileStore "old-file" ∈
      (EntryManager.insert_file_entry
        ⟨[⟨"u", .image_file, "old-file", 0, "img"⟩], ["old-file"], [], []⟩
        ⟨"u", .image_file, "local.jpg", 0, "img"⟩ true true).1.trace ∧
    ((EntryManager.insert_file_entry
        ⟨[⟨"u", .image_file, "old-file", 0, "img"⟩], ["old-file"], [], []⟩
        ⟨"u", .image_file, "local.jpg", 0, "img"⟩ true true).2 = .ok true ∧
      (EntryManager.insert_file_entry
        ⟨[⟨"u", .image_file, "old-file", 0, "img"⟩], ["old-file"], [], []⟩
        ⟨"u", .image_file, "local.jpg", 0, "img"⟩ true true).1.trace =
        [.pullEntry (DbEntry.mk "u" .image_file "local.jpg" 0 "img").uuid true,
          .insertFileStore (DbEntry.mk "u" .image_file "local.jpg" 0 "img").file_id
            ("stored-" ++ (DbEntry.mk "u" .image_file "local.jpg" 0 "img").file_id),
          .pullEntry (DbEntry.mk "u" .image_file "local.jpg" 0 "img").uuid true,
          .deleteEntryDb (DbEntry.mk "u" .image_file "local.jpg" 0 "img").uuid,
          .insertEntryDb (DbEntry.mk "u" .image_file "local.jpg" 0 "img").uuid,
          .deleteFileStore "old-file"]) :=
  ⟨by decide,
    (insert_file_entry_payload_swap_safety [⟨"u", .image_file, "old-file", 0, "img"⟩]
      ["old-file"] [] ⟨"u", .image_file, "local.jpg", 0, "img"⟩ true true).1 "old-file"
      (by decide)⟩

theorem DB.pull?_some_uuid {db : DB} {u : String} {e : DbEntry}
    (h : DB.pull? db u = some e) : e.uuid = u := by
  have := List.find?_some h
  simpa using this

/-- C5 counterexample: deleting the stored image entry u1 removes the durable
payload f1 from the file store strictly before the metadata row is removed
from the database, refuting the claimed payload-after-metadata ordering
(delete_file_entry in entry_manager.py removes the file first by its own
docstring). -/
theorem delete_entry_payload_deleted_before_metadata :
    (EntryManager.delete_entry
        ⟨[⟨"u1", .image_file, "f1", 0, "img"⟩], ["f1"], [], []⟩ "u1").1.trace =
      [.pullEntry "u1" true, .deleteFileStore "f1", .deleteEntryDb "u1"] ∧
    List.indexOf (StoreEv.deleteFileStore "f1")
        (EntryManager.delete_entry
          ⟨[⟨"u1", .image_file, "f1", 0, "img"⟩], ["f1"], [], []⟩ "u1").1.trace <
      List.indexOf (StoreEv.deleteEntryDb "u1")
        (EntryManager.delete_entry
          ⟨[⟨"u1", .image_file, "f1", 0, "img"⟩], ["f1"], [], []⟩ "u1").1.trace := by
  decide

/-- C5 amended: delete_entry fails with NotFound when the identity is absent,
and in every failure-free run on a stored payload-bearing (file-type) record
the durable payload is deleted first and the metadata row is removed
afterwards, the reverse of the claimed order. -/
theorem delete_entry_contract (db : DB) (files : List String) (u : String) :
    (db.pull? u = none →
      (EntryManager.delete_entry ⟨db, files, [], []⟩ u).2 = .error .notFound) ∧
    (∀ e, db.pull? u = some e → is_file_entry_type e.entry_type = true →
      (EntryManager.delete_entry ⟨db, files, [], []⟩ u).1.trace =
        [.pullEntry u true, .deleteFileStore e.file_id, .deleteEntryDb u]) := by
  constructor
  · intro h
    simp [EntryManager.delete_entry, EntryManager.get_entry_if_exists, h, StoreState.log]
  · intro e h hf
    simp [EntryManager.delete_entry, EntryManager.get_entry_if_exists, h, hf,
      EntryManager.delete_file_entry, rmDeleteFile, rmDeleteEntry, StoreState.takeOracle,
      StoreState.log, DB.pull?_some_uuid h]

/-- Witness for delete_entry_contract: a store holding one image entry u1,
probed with an absent uuid and with u1 itself. -/
theorem delete_entry_contract_witness :
    (DB.pull? [⟨"u1", .image_file, "f1", 0, "img"⟩] "zz" = none ∧
      (EntryManager.delete_entry
        ⟨[⟨"u1", .image_file, "f1", 0, "img"⟩], ["f1"], [], []⟩ "zz").2 = .error .notFound) ∧
    (DB.pull? [⟨"u1", .image_file, "f1", 0, "img"⟩] "u1" =
        some ⟨"u1", .image_file, "f1", 0, "img"⟩ ∧
      is_file_entry_type EntryType.image_file = true ∧
      (EntryManager.delete_entry
        ⟨[⟨"u1", .image_file, "f1", 0, "img"⟩], ["f1"], [], []⟩ "u1").1.trace =
        [.pullEntry "u1" true,
          .deleteFileStore (DbEntry.mk "u1" .image_file "f1" 0 "img").file_id,
          .deleteEntryDb "u1"]) :=
  ⟨⟨by decide, (delete_entry_contract [⟨"u1", .image_file, "f1", 0, "img"⟩] ["f1"] "zz").1
      (by decide)⟩,
    ⟨by decide, by decide,
      (delete_entry_contract [⟨"u1", .image_file, "f1", 0, "img"⟩] ["f1"] "u1").2
        ⟨"u1", .image_file, "f1", 0, "img"⟩ (by decide) (by decide)⟩⟩

/-- hash_text from src/jserver/utils/hashers.py: the SHA-256 hexdigest of the
text. Modelled as an injective executable digest (the ideal collision-free
reading of SHA-256); no theorem below relies on injectivity, only on equal
inputs producing equal digests. -/
def hash_text (s : String) : String := "sha256:" ++ s

/-- TextEntry (generic_entries.py lines 11-30) restricted to the fields that
enter identity derivation or the EntryManager contract; presentation-only
fields (privacy, tags, metadata, latitude, longitude, height) never enter
entry_uuid or entry_hash. -/
structure TextEntry where
  data : String
  start_time : Int
  end_time : Option Int := none
  group_id : Option String := none
  seq_id : Option Int := none
  input_handler_id : String
  mutation_count : Int := 0
  entry_uuid_override : Option String := none
  entry_hash_override : Option String := none
deriving DecidableEq, Repr

/-- TextEntry.entry_hash (generic_entries.py lines 24-27): the subclass
redefines the entry_hash property directly, so Python attribute lookup
resolves here and the override-aware base property EntryABC.entry_hash
(entry.py lines 64-72) is shadowed: entry_hash_override is ignored for text
entries. -/
def TextEntry.entry_hash (e : TextEntry) : String := hash_text e.data

/-- TextEntry.entry_uuid (generic_entries.py lines 15-22): likewise redefined
directly on the subclass, shadowing the override-aware EntryABC.entry_uuid
(entry.py lines 43-51), so entry_uuid_override is ignored for text entries. -/
def TextEntry.entry_uuid (e : TextEntry) : String :=
  "text-" ++ e.input_handler_id ++ "-" ++ toString e.start_time ++ "-" ++ e.entry_hash

/-- FileDetail (generic_entries.py lines 33-37); file_metadata is a dict whose
str() rendering is what enters the hash, carried here as that rendered
string. -/
structure FileDetail where
  file_id : String
  file_name : String
  file_type : String
  file_metadata : String
deriving DecidableEq, Repr

/-- GenericFileEntry (generic_entries.py lines 39-112) and its subtypes
(file_entries.py), restricted to the identity-relevant fields; entry_type is
the concrete subclass tag. -/
structure GenericFileEntry where
  entry_type : EntryType := .generic_file
  data : FileDetail
  start_time : Int
  end_time : Option Int := none
  group_id : Option String := none
  seq_id : Option Int := none
  input_handler_id : String
  mutation_count : Int := 0
  entry_uuid_override : Option String := none
  entry_hash_override : Option String := none
deriving DecidableEq, Repr

/-- GenericFileEntry._entry_hash (generic_entries.py lines 91-99): digest of
file_name, file_type and str(file_metadata); the file contents and
data.file_id never enter the hash (its docstring presents this as deliberate,
keeping the hash stable across re-uploads of the same file). -/
def GenericFileEntry.hash_derived (e : GenericFileEntry) : String :=
  hash_text (e.data.file_name ++ e.data.file_type ++ e.data.file_metadata)

/-- EntryABC.entry_hash as inherited by GenericFileEntry (entry.py lines
64-72): the override wins when present, else the derived hash. -/
def GenericFileEntry.entry_hash (e : GenericFileEntry) : String :=
  e.entry_hash_override.getD e.hash_derived

/-- GenericFileEntry._entry_uuid (generic_entries.py lines 86-89), built from
the override-aware entry_hash. -/
def GenericFileEntry.uuid_derived (e : GenericFileEntry) : String :=
  "file-" ++ toString e.start_time ++ "-" ++ e.entry_hash

/-- EntryABC.entry_uuid as inherited by GenericFileEntry (entry.py lines
43-51): the override wins when present, else the derived uuid. -/
def GenericFileEntry.entry_uuid (e : GenericFileEntry) : String :=
  e.entry_uuid_override.getD e.uuid_derived

/-- C6 counterexample: two generic file entries referencing different stored
payloads (different data.file_id, hence different file contents) while
sharing file_name, file_type and file_metadata have equal entry_hash, so
changing a file entry's content does not change its hash, refuting the
claimed hash-content equivalence. -/
theorem entry_hash_equal_despite_different_content :
    GenericFileEntry.entry_hash
        { data := ⟨"payload-A", "doc.txt", ".txt", "m"⟩, start_time := 5,
          input_handler_id := "h" } =
      GenericFileEntry.entry_hash
        { data := ⟨"payload-B", "doc.txt", ".txt", "m"⟩, start_time := 5,
          input_handler_id := "h" } ∧
    ("payload-A" : String) ≠ "payload-B" := by
  exact ⟨rfl, by decide⟩

/-- C6 amended: a file entry's hash is a function of file_name, file_type and
file_metadata alone (the payload reference data.file_id, and hence the file
contents, never enter it), and a text entry's hash is a function of its
text. -/
theorem entry_hash_depends_only_on_descriptor
    (e1 e2 : GenericFileEntry)
    (hov1 : e1.entry_hash_override = none) (hov2 : e2.entry_hash_override = none)
    (hn : e1.data.file_name = e2.data.file_name) (ht : e1.data.file_type = e2.data.file_type)
    (hm : e1.data.file_metadata = e2.data.file_metadata) :
    e1.entry_hash = e2.entry_hash ∧
    ∀ t1 t2 : TextEntry, t1.data = t2.data → t1.entry_hash = t2.entry_hash := by
  constructor
  · simp [GenericFileEntry.entry_hash, hov1, hov2, GenericFileEntry.hash_derived, hn, ht, hm]
  · intro t1 t2 h
    simp [TextEntry.entry_hash, h]

/-- Witness for entry_hash_depends_only_on_descriptor at concrete entries
differing only in data.file_id and in text payloads. -/
theorem entry_hash_depends_only_on_descriptor_witness :
    (GenericFileEntry.mk .generic_file ⟨"idA", "n", ".t", "m"⟩ 1 none none none "h" 0 none
        none).entry_hash_override = none ∧
    (GenericFileEntry.mk .generic_file ⟨"idB", "n", ".t", "m"⟩ 1 none none none "h" 0 none
        none).entry_hash =
      (GenericFileEntry.mk .generic_file ⟨"idA", "n", ".t", "m"⟩ 1 none none none "h" 0 none
        none).entry_hash ∧
    ∀ t1 t2 : TextEntry, t1.data = t2.data → t1.entry_hash = t2.entry_hash := by
  refine ⟨rfl, ?_, ?_⟩
  · exact ((entry_hash_depends_only_on_descriptor
      (GenericFileEntry.mk .generic_file ⟨"idB", "n", ".t", "m"⟩ 1 none none none "h" 0 none none)
      (GenericFileEntry.mk .generic_file ⟨"idA", "n", ".t", "m"⟩ 1 none none none "h" 0 none none)
      rfl rfl rfl rfl rfl).1)
  · exact ((entry_hash_depends_only_on_descriptor
      (GenericFileEntry.mk .generic_file ⟨"idB", "n", ".t", "m"⟩ 1 none none none "h" 0 none none)
      (GenericFileEntry.mk .generic_file ⟨"idA", "n", ".t", "m"⟩ 1 none none none "h" 0 none none)
      rfl rfl rfl rfl rfl).2)

/-- NotionBlock as consumed by split_page_blocks (notion.py). type is the
block type tag; id, created_time_ms and last_edit_time_ms come from the
block envelope. For rich-text blocks richTextEmpty records
len(paragraph.rich_text) == 0 and markdown the markdown_text rendering (for
equation blocks, the latex expression; language is the code block's
language). The file metadata triple returned by get_file_metadata — an
external download — is carried on the block as the environment's answer;
latitude and longitude are opaque scalars here since no claim inspects their
value. -/
structure NBlock where
  type : String
  id : String
  created_time_ms : Int
  last_edit_time_ms : Int
  richTextEmpty : Bool := false
  markdown : String := ""
  language : String := ""
  fileStartTimeMs : Option Int := none
  fileLatLng : Option (Int × Int) := none
  fileDurationMs : Option Int := none
deriving DecidableEq, Repr

instance : Inhabited NBlock := ⟨⟨"", "", 0, 0, false, "", "", none, none, none⟩⟩

/-- block_type_clusters from notion.py lines 556-562. -/
def block_type_clusters : List (List String) :=
  [["paragraph", "heading_1", "heading_2", "heading_3", "bulleted_list_item",
    "numbered_list_item", "quote", "code", "equation"],
   ["image"], ["video"], ["audio"], ["file"]]

/-- clustering_allowed from notion.py lines 566-572: only the text cluster may
hold more than one block. -/
def clustering_allowed : List Bool := [true, false, false, false, false]

/-- get_cluster_idx (notion.py lines 574-578); an unrecognized type raises
ValueError in Python, modelled as the out-of-range index 5, unreachable for
validated blocks. -/
def get_cluster_idx (block_type : String) : Nat :=
  match block_type_clusters.findIdx? (fun cluster => cluster.contains block_type) with
  | some i => i
  | none => block_type_clusters.length

/-- Numeric value of a decimal digit character. -/
def digitVal (c : Char) : Nat := c.toNat - 48

/-- Greedy hour match for the (\d{1,2}): prefix of parse_date_block's pattern
with the regex backtracking: two digits followed by a colon, else one digit
followed by a colon. -/
def parse_hour : List Char → Option (Nat × List Char)
  | a :: b :: c :: rest =>
    if a.isDigit && b.isDigit && c = ':' then some (digitVal a * 10 + digitVal b, rest)
    else if a.isDigit && b = ':' then some (digitVal a, c :: rest)
    else none
  | [a, b] => if a.isDigit && b = ':' then some (digitVal a, []) else none
  | _ => none

/-- Exactly two digits, as in the (\d{2}) groups. -/
def parse_two_digits : List Char → Option (Nat × List Char)
  | a :: b :: rest =>
    if a.isDigit && b.isDigit then some (digitVal a * 10 + digitVal b, rest) else none
  | _ => none

/-- Optional seconds group (?::(\d{2}))?; when the colon is not followed by
two digits the group is skipped and nothing is consumed. Python defaults the
seconds to 0 when the group is absent. -/
def parse_opt_seconds (cs : List Char) : Nat × List Char :=
  match cs with
  | ':' :: rest =>
    match parse_two_digits rest with
    | some (s, r) => (s, r)
    | none => (0, cs)
  | _ => (0, cs)

/-- Optional whitespace \s? followed by the optional meridiem group
(AM|PM|am|pm)? under IGNORECASE; returns the normalized marker when present. -/
def parse_opt_meridiem (cs : List Char) : Option String :=
  let cs := match cs with
    | c :: rest => if c.isWhitespace then rest else c :: rest
    | [] => []
  match cs with
  | a :: b :: _ =>
    if (a = 'a' ∨ a = 'A') ∧ (b = 'm' ∨ b = 'M') then some "am"
    else if (a = 'p' ∨ a = 'P') ∧ (b = 'm' ∨ b = 'M') then some "pm"
    else none
  | _ => none

/-- parse_date_block (notion.py lines 580-602). Python runs re.match with
pattern (\d{1,2}):(\d{2})(?::(\d{2}))?\s?(AM|PM|am|pm)? and IGNORECASE;
re.match anchors only at the start of the string, so any text that merely
begins with a clock time matches and the trailing remainder is ignored. The
embedding reproduces that prefix semantics. On a match the result is the
offset in milliseconds from the start of the day, with 12-hour adjustment
when a meridiem marker was captured. -/
def parse_date_block (text : String) : Option Int :=
  match parse_hour text.toList with
  | none => none
  | some (hour, rest) =>
    match parse_two_digits rest with
    | none => none
    | some (minute, rest) =>
      let (seconds, rest) := parse_opt_seconds rest
      let am_pm := parse_opt_meridiem rest
      let hour : Nat :=
        match am_pm with
        | some "pm" => if hour ≠ 12 then hour + 12 else hour
        | some "am" => if hour = 12 then 0 else hour
        | _ => hour
      some (((hour * 3600 + minute * 60 + seconds) * 1000 : Nat) : Int)

/-- NotionEntry (notion.py lines 443-463): a cluster of blocks destined to
become one entry. latitude and longitude are carried as opaque scalars. -/
structure NotionEntry where
  rep_uuid : String
  group_id : String
  start_time : Int
  last_updated_time : Int
  duration : Option Int := none
  latitude : Option Int := none
  longitude : Option Int := none
  seq_id : Option Int := none
  notion_blocks : List NBlock := []
deriving DecidableEq, Repr

instance : Inhabited NotionEntry := ⟨⟨"", "", 0, 0, none, none, none, none, []⟩⟩

/-- create_notion_entry (notion.py lines 465-521): rep_uuid is the first
block's type and id; the start time defaults to the first block's creation
time unless overridden; for a file-kind first block the file metadata
supplies the start time (only when no override is present), location and
duration; last_updated_time is the maximum last edit time. Python indexes
blocks[0] and would raise on an empty list, which no caller reaches; headD
with the default block stands for that unreachable case. -/
def create_notion_entry (blocks : List NBlock) (seq_id : Int) (group_id : String)
    (start_time_override : Option Int) : NotionEntry :=
  let b0 := blocks.headD default
  let rep_uuid := b0.type ++ "_" ++ b0.id
  let start_time := start_time_override.getD b0.created_time_ms
  let duration : Option Int := none
  let latitude : Option Int := none
  let longitude : Option Int := none
  let (start_time, latitude, longitude, duration) :=
    if b0.type = "file" ∨ b0.type = "image" ∨ b0.type = "video" ∨ b0.type = "audio" then
      let start_time :=
        match b0.fileStartTimeMs, start_time_override with
        | some t, none => t
        | _, _ => start_time
      let (latitude, longitude) :=
        match b0.fileLatLng with
        | some latlng => (some latlng.1, some latlng.2)
        | none => (latitude, longitude)
      let duration :=
        match b0.fileDurationMs with
        | some d => some d
        | none => duration
      (start_time, latitude, longitude, duration)
    else (start_time, latitude, longitude, duration)
  let last_updated_time := ((blocks.map (fun b => b.last_edit_time_ms)).max?).getD 0
  { rep_uuid := rep_uuid, group_id := group_id, start_time := start_time,
    last_updated_time := last_updated_time, duration := duration, latitude := latitude,
    longitude := longitude, seq_id := some seq_id, notion_blocks := blocks }

/-- Loop state of split_page_blocks (notion.py lines 725-728). -/
structure SplitState where
  cur_block_cluster : Option Nat
  cur_blocks : List NBlock
  entries : List NotionEntry
  start_time_override : Option Int
deriving DecidableEq, Repr

/-- Per-block body of the split_page_blocks loop (notion.py lines 729-759).
A blank paragraph flushes a nonempty cluster and resets the override, but is
a complete no-op on an empty cluster (the reset sits inside the nonempty
guard). A paragraph parsing as a clock time flushes a nonempty cluster, sets
the override to day start plus the parsed offset, and is itself discarded.
Any other block first flushes when the cluster type changes or the incoming
type disallows clustering — seeding the override from the start time of the
record just flushed — and is then appended to the cluster. -/
def split_step (day_start_time_ms : Int) (group_id : String) (st : SplitState)
    (block : NBlock) : SplitState :=
  if block.type = "paragraph" ∧ block.richTextEmpty then
    if st.cur_blocks.length > 0 then
      { cur_block_cluster := none, cur_blocks := [],
        entries := st.entries ++
          [create_notion_entry st.cur_blocks st.entries.length group_id st.start_time_override],
        start_time_override := none }
    else st
  else if block.type = "paragraph" ∧ (parse_date_block block.markdown).isSome then
    let st :=
      if st.cur_blocks.length > 0 then
        { st with
          entries := st.entries ++
            [create_notion_entry st.cur_blocks st.entries.length group_id
              st.start_time_override],
          cur_blocks := [], cur_block_cluster := none }
      else st
    match parse_date_block block.markdown with
    | some off => { st with start_time_override := some (day_start_time_ms + off) }
    | none => st
  else
    let block_cluster := get_cluster_idx block.type
    match st.cur_block_cluster with
    | none =>
      { st with cur_block_cluster := some block_cluster, cur_blocks := st.cur_blocks ++ [block] }
    | some cur =>
      if cur ≠ block_cluster ∨ clustering_allowed.getD block_cluster false = false then
        let new_entry :=
          create_notion_entry st.cur_blocks st.entries.length group_id st.start_time_override
        { cur_block_cluster := some block_cluster, cur_blocks := [block],
          entries := st.entries ++ [new_entry],
          start_time_override := some new_entry.start_time }
      else { st with cur_blocks := st.cur_blocks ++ [block] }

/-- split_page_blocks (notion.py lines 717-764): folds the loop body over the
page blocks and flushes any remaining cluster at the end of input. The day
end bound is accepted but never read by the Python function. -/
def split_page_blocks (page_blocks : List NBlock) (day_start_time_ms day_end_time_ms : Int)
    (group_id : String) : List NotionEntry :=
  let st := page_blocks.foldl (split_step day_start_time_ms group_id) ⟨none, [], [], none⟩
  if st.cur_blocks.length > 0 then
    st.entries ++
      [create_notion_entry st.cur_blocks st.entries.length group_id st.start_time_override]
  else st.entries

/-- Python list read notion_entries[i] including the negative-index semantics:
a negative index counts from the end of the list. -/
def pyGet (a : Array NotionEntry) (i : Int) : NotionEntry :=
  if i < 0 then a.getD (a.size - (-i).toNat) default else a.getD i.toNat default

/-- Backward scan of resolve_monotonicity (notion.py lines 780-782): from
index j, walk left while the entry's start_time exceeds t; the result is the
index reached, or -1 when the scan walks past the front of the list. -/
def scan_back (a : Array NotionEntry) (t : Int) : Nat → Int
  | 0 => if (a.getD 0 default).start_time > t then -1 else 0
  | j + 1 =>
    if (a.getD (j + 1) default).start_time > t then scan_back a t j else Int.ofNat (j + 1)

/-- Loop body of resolve_monotonicity (notion.py lines 774-787) at index i:
an out-of-day-range entry is clamped to cur_time; an in-range entry that
decreases below cur_time triggers the backward scan, after which cur_time
becomes the start time of the entry at the found index — read with Python
indexing, so a scan result of -1 wraps around to the last entry of the list —
and every entry strictly between the found index and i is set to that time;
otherwise cur_time advances to the entry's time. -/
def resolve_step (day_start_ms day_end_ms : Int) (st : Array NotionEntry × Int) (i : Nat) :
    Array NotionEntry × Int :=
  let (a, cur_time) := st
  let e := a.getD i default
  if e.start_time < day_start_ms ∨ e.start_time > day_end_ms then
    (a.setD i { e with start_time := cur_time }, cur_time)
  else if e.start_time < cur_time then
    let k : Int := if i = 0 then -1 else scan_back a e.start_time (i - 1)
    let cur_time := (pyGet a k).start_time
    let lo := (k + 1).toNat
    let a := (List.range' lo (i - lo)).foldl
      (fun (acc : Array NotionEntry) j =>
        acc.setD j { acc.getD j default with start_time := cur_time }) a
    (a, cur_time)
  else (a, e.start_time)

/-- resolve_monotonicity (notion.py lines 766-788): walks the entries once
with cur_time initialized to the sentinel -1, mutating start times in place. -/
def resolve_monotonicity (notion_entries : List NotionEntry) (day_start_ms day_end_ms : Int) :
    List NotionEntry :=
  ((List.range notion_entries.length).foldl (resolve_step day_start_ms day_end_ms)
    (notion_entries.toArray, -1)).1.toList

/-- Paragraph block with the given markdown text, creation time and id. -/
def text_para (s : String) (t : Int) (id : String) : NBlock :=
  { type := "paragraph", id := id, created_time_ms := t, last_edit_time_ms := t,
    richTextEmpty := false, markdown := s }

/-- Blank paragraph block (empty rich text). -/
def blank_para (id : String) (t : Int) : NBlock :=
  { type := "paragraph", id := id, created_time_ms := t, last_edit_time_ms := t,
    richTextEmpty := true }

/-- Candidate with the given start time, for the monotonicity evaluation. -/
def mono_entry (t : Int) : NotionEntry :=
  { rep_uuid := "r" ++ toString t, group_id := "g", start_time := t, last_updated_time := 0 }

/-- C1 (code bug, evaluated at the spec's own example): resolve_monotonicity
on candidates timed [5, 3, 8, 2, 9] within day bounds [0, 100] keeps all five
candidates but returns start times [9, 9, 9, 2, 9], which is not
non-decreasing. When the backward scan finds no earlier candidate with a
lower-or-equal time, cur_entry reaches -1 and the Python read
notion_entries[-1] wraps around to the last entry of the list, injecting that
later timestamp, contrary to the function's stated guarantee. -/
theorem resolve_monotonicity_spec_example_not_monotone :
    ((resolve_monotonicity
        [mono_entry 5, mono_entry 3, mono_entry 8, mono_entry 2, mono_entry 9] 0 100).map
      (fun e => e.start_time)) = [9, 9, 9, 2, 9] ∧
    ¬ List.Sorted (· ≤ ·)
      ((resolve_monotonicity
          [mono_entry 5, mono_entry 3, mono_entry 8, mono_entry 2, mono_entry 9] 0 100).map
        (fun e => e.start_time)) ∧
    (resolve_monotonicity
        [mono_entry 5, mono_entry 3, mono_entry 8, mono_entry 2, mono_entry 9] 0 100).length =
      5 := by
  have h1 : ((resolve_monotonicity
      [mono_entry 5, mono_entry 3, mono_entry 8, mono_entry 2, mono_entry 9] 0 100).map
      (fun e => e.start_time)) = [9, 9, 9, 2, 9] := by rfl
  refine ⟨h1, ?_, by rfl⟩
  rw [h1]
  decide

/-- C7 (code bug, evaluated at the failing input): parse_date_block uses
re.match, which anchors only at the start of the string, so a paragraph whose
content merely begins with a clock time is treated as a time marker and
discarded — split_page_blocks yields no candidate for it, although its
content is not a bare clock time — while genuine bare clock times parse to
their day offsets and non-times are appended to clusters as the claim
expects. -/
theorem time_marker_prefix_match_discards_content :
    parse_date_block "5:30 went for a run" = some 19800000 ∧
    split_page_blocks [text_para "5:30 went for a run" 42 "b1"] 0 86400000 "g" = [] ∧
    parse_date_block "5:30" = some 19800000 ∧
    parse_date_block "5:30:07" = some 19807000 ∧
    parse_date_block "11:30pm" = some 84600000 ∧
    parse_date_block "12:05:09 AM" = some 309000 ∧
    parse_date_block "hello" = none ∧
    parse_date_block "a 5:30" = none ∧
    (split_page_blocks [text_para "hello" 42 "b1"] 0 86400000 "g").map
      (fun e => e.notion_blocks) = [[text_para "hello" 42 "b1"]] := by
  decide

/-- C8 counterexample: a blank paragraph arriving while the cluster is empty
does not reset time_override — the reset sits inside the nonempty-cluster
guard of split_page_blocks — observably: after a 5:00 time marker, a blank,
and a text block created at 42, the single candidate keeps the marker
override 18000000 instead of the block creation time 42 that the claimed
unconditional reset would give. -/
theorem blank_on_empty_cluster_keeps_override :
    ((split_page_blocks [text_para "5:00" 5 "b0", blank_para "b1" 6, text_para "a" 42 "b2"]
        0 86400000 "g").map (fun e => e.start_time)) = [18000000] ∧
    ((split_page_blocks [text_para "5:00" 5 "b0", blank_para "b1" 6, text_para "a" 42 "b2"]
        0 86400000 "g").map (fun e => e.start_time)) ≠ [42] := by
  decide

/-- C8 amended: a blank text block with a nonempty current cluster flushes it
into a new candidate and resets time_override; with an empty cluster it is a
complete no-op, leaving time_override untouched; and the spec's example
[text a, blank, text b] within one day window still produces exactly two
singleton text candidates. -/
theorem blank_block_flush_contract
    (ds : Int) (gid : String) (st : SplitState) (b : NBlock)
    (hb1 : b.type = "paragraph") (hb2 : b.richTextEmpty = true) :
    (st.cur_blocks = [] → split_step ds gid st b = st) ∧
    (st.cur_blocks ≠ [] →
      split_step ds gid st b =
        { cur_block_cluster := none, cur_blocks := [],
          entries := st.entries ++
            [create_notion_entry st.cur_blocks st.entries.length gid st.start_time_override],
          start_time_override := none }) ∧
    (split_page_blocks [text_para "a" 10 "b1", blank_para "b2" 11, text_para "b" 20 "b3"]
        0 86400000 "g").map (fun e => e.notion_blocks) =
      [[text_para "a" 10 "b1"], [text_para "b" 20 "b3"]] := by
  refine ⟨?_, ?_, by decide⟩
  · intro h
    simp [split_step, hb1, hb2, h]
  · intro h
    simp [split_step, hb1, hb2, List.length_pos.mpr h]

/-- Witness for blank_block_flush_contract: the empty initial state and a
state holding one pending text block, each hit with a blank paragraph. -/
theorem blank_block_flush_contract_witness :
    (blank_para "w" 3).type = "paragraph" ∧
    (blank_para "w" 3).richTextEmpty = true ∧
    (SplitState.mk none [] [] (some 9)).cur_blocks = [] ∧
    split_step 0 "g" (SplitState.mk none [] [] (some 9)) (blank_para "w" 3) =
      SplitState.mk none [] [] (some 9) ∧
    (SplitState.mk (some 0) [text_para "x" 4 "b9"] [] (some 9)).cur_blocks ≠ [] ∧
    split_step 0 "g" (SplitState.mk (some 0) [text_para "x" 4 "b9"] [] (some 9))
        (blank_para "w" 3) =
      { cur_block_cluster := none, cur_blocks := [],
        entries := [] ++
          [create_notion_entry [text_para "x" 4 "b9"]
            (List.length ([] : List NotionEntry)) "g" (some 9)],
        start_time_override := none } :=
  ⟨rfl, rfl, rfl,
    (blank_block_flush_contract 0 "g" (SplitState.mk none [] [] (some 9)) (blank_para "w" 3)
      rfl rfl).1 rfl,
    by decide,
    (blank_block_flush_contract 0 "g" (SplitState.mk (some 0) [text_para "x" 4 "b9"] [] (some 9))
      (blank_para "w" 3) rfl rfl).2.1 (by decide)⟩

/-- Markdown rendering of one text-cluster block with the running
numbered-list counter (notion.py lines 616-645): the rendered text, whether a
blank markdown line separates it from its predecessor, and the updated
counter. -/
def text_block_markdown (num_list_num : Nat) (b : NBlock) : String × Bool × Nat :=
  if b.type = "paragraph" then (b.markdown, true, num_list_num)
  else if b.type = "heading_1" then ("# " ++ b.markdown, true, num_list_num)
  else if b.type = "heading_2" then ("## " ++ b.markdown, true, num_list_num)
  else if b.type = "heading_3" then ("### " ++ b.markdown, true, num_list_num)
  else if b.type = "bulleted_list_item" then ("- " ++ b.markdown, false, num_list_num)
  else if b.type = "numbered_list_item" then
    (toString num_list_num ++ ". " ++ b.markdown, false, num_list_num + 1)
  else if b.type = "quote" then ("> " ++ b.markdown, true, num_list_num)
  else if b.type = "code" then
    ("```" ++ b.language ++ "\n" ++ b.markdown ++ "\n```", true, num_list_num)
  else if b.type = "equation" then ("$$" ++ b.markdown ++ "$$", true, num_list_num)
  else ("", true, num_list_num)

/-- Text-assembly loop of notion_entry_to_entry for a text cluster (notion.py
lines 613-646). -/
def render_text_blocks (blocks : List NBlock) : String :=
  (blocks.foldl
    (fun (st : String × Nat × Bool) b =>
      let (text, num, first) := st
      let (new_text, nl, num') := text_block_markdown num b
      let text :=
        if first then text ++ new_text
        else text ++ (if nl then "\n\n" else "\n") ++ new_text
      (text, num', false))
    ("", 1, true)).1

/-- notion_entry_to_entry (notion.py lines 604-714) on a text cluster
(cluster type 0): builds a TextEntry whose entry_uuid_override is the notion
entry's rep_uuid (line 713). The file-cluster branches download their payload
over the network and fall outside the pure fragment, but every branch ends in
the same constructor call carrying entry_uuid_override := rep_uuid. -/
def notion_entry_to_text_entry (notion_entry : NotionEntry) (handler_id : String) : TextEntry :=
  { data := render_text_blocks notion_entry.notion_blocks,
    start_time := notion_entry.start_time,
    end_time :=
      match notion_entry.duration with
      | some d => some (notion_entry.start_time + d)
      | none => none,
    group_id := some notion_entry.group_id,
    seq_id := notion_entry.seq_id,
    input_handler_id := handler_id,
    entry_uuid_override := some notion_entry.rep_uuid }

/-- Notion entry for the C4 evaluation: a single-paragraph text cluster with
rep_uuid paragraph_b1. -/
def ne4 : NotionEntry :=
  { rep_uuid := "paragraph_b1", group_id := "g", start_time := 7, last_updated_time := 7,
    seq_id := some 0, notion_blocks := [text_para "hello" 7 "b1"] }

/-- C4 (code bug, evaluated at the failing input): notion_entry_to_entry
hands entry_uuid_override := rep_uuid to the TextEntry it builds for a
page-block text cluster, and EntryABC.entry_uuid documents that an override,
when present, is the entry's uuid; but TextEntry redefines entry_uuid
directly, shadowing the override-aware base property, so the produced text
entry's uuid ignores the override — while file entries, which inherit the
base property, honor theirs. -/
theorem text_entry_ignores_uuid_override :
    (notion_entry_to_text_entry ne4 "h").entry_uuid_override = some "paragraph_b1" ∧
    (notion_entry_to_text_entry ne4 "h").entry_uuid = "text-h-7-sha256:hello" ∧
    (notion_entry_to_text_entry ne4 "h").entry_uuid ≠ "paragraph_b1" ∧
    GenericFileEntry.entry_uuid
      { data := ⟨"f", "n", ".t", "m"⟩, start_time := 7, input_handler_id := "h",
        entry_uuid_override := some "paragraph_b1" } = "paragraph_b1" := by
  decide

/-- Interval-check pass of _start_watching (input_handler_manager.py lines
252-258): handlers are visited in order; one with check interval None is
skipped; otherwise the trigger fires exactly when time_ms minus the handler's
last_updated is strictly greater than interval seconds times 1000 (the float
seconds are modelled as an exact rational), in which case last_updated is set
to time_ms and the handler is dispatched. Returns the updated last_updated
map and the handlers fired on this tick, in order. -/
def tick_go (time_ms : Int) :
    List (String × Option ℚ) → (String → Int) → List String → (String → Int) × List String
  | [], last, fired => (last, fired)
  | (_, none) :: rest, last, fired => tick_go time_ms rest last fired
  | (k, some interval_seconds) :: rest, last, fired =>
    let interval := interval_seconds * 1000
    if ((time_ms - last k : Int) : ℚ) > interval then
      tick_go time_ms rest (fun h' => if h' = k then time_ms else last h') (fired ++ [k])
    else tick_go time_ms rest last fired

/-- One scheduler tick over the configured check_intervals map, starting from
the given last_updated map. -/
def tick (check_intervals : List (String × Option ℚ)) (last_updated : String → Int)
    (time_ms : Int) : (String → Int) × List String :=
  tick_go time_ms check_intervals last_updated []

theorem tick_go_mem (time_ms : Int) (cis : List (String × Option ℚ)) :
    ∀ (last : String → Int) (fired : List String),
      (cis.map Prod.fst).Nodup →
      ∀ hid, hid ∈ (tick_go time_ms cis last fired).2 ↔
        (hid ∈ fired ∨
          ∃ s, (hid, some s) ∈ cis ∧ ((time_ms - last hid : Int) : ℚ) > s * 1000) := by
  induction cis with
  | nil =>
    intro last fired _ hid
    simp [tick_go]
  | cons p rest ih =>
    intro last fired hnd hid
    obtain ⟨k, io⟩ := p
    have hk : k ∉ rest.map Prod.fst := (List.nodup_cons.mp (by simpa using hnd)).1
    have hrest : (rest.map Prod.fst).Nodup := (List.nodup_cons.mp (by simpa using hnd)).2
    cases io with
    | none =>
      rw [show tick_go time_ms ((k, none) :: rest) last fired =
        tick_go time_ms rest last fired from rfl]
      rw [ih last fired hrest hid]
      constructor
      · rintro (hf | ⟨s, hs, hlt⟩)
        · exact Or.inl hf
        · exact Or.inr ⟨s, List.mem_cons_of_mem _ hs, hlt⟩
      · rintro (hf | ⟨s, hs, hlt⟩)
        · exact Or.inl hf
        · rcases List.mem_cons.mp hs with heq | hmem
          · exact absurd heq (by simp)
          · exact Or.inr ⟨s, hmem, hlt⟩
    | some s0 =>
      have hstep : tick_go time_ms ((k, some s0) :: rest) last fired =
          if ((time_ms - last k : Int) : ℚ) > s0 * 1000 then
            tick_go time_ms rest (fun h' => if h' = k then time_ms else last h') (fired ++ [k])
          else tick_go time_ms rest last fired := rfl
      by_cases hc : ((time_ms - last k : Int) : ℚ) > s0 * 1000
      · rw [hstep, if_pos hc, ih _ _ hrest hid]
        by_cases hhk : hid = k
        · subst hhk
          constructor
          · intro _
            exact Or.inr ⟨s0, List.mem_cons_self _ _, hc⟩
          · intro _
            exact Or.inl (by simp)
        · constructor
          · rintro (hf | ⟨s, hs, hlt⟩)
            · rcases List.mem_append.mp hf with hf | hf
              · exact Or.inl hf
              · exact absurd (by simpa using hf) hhk
            · exact Or.inr ⟨s, List.mem_cons_of_mem _ hs, by simpa [hhk] using hlt⟩
          · rintro (hf | ⟨s, hs, hlt⟩)
            · exact Or.inl (List.mem_append.mpr (Or.inl hf))
            · rcases List.mem_cons.mp hs with heq | hmem
              · exact absurd (congrArg Prod.fst heq) hhk
              · exact Or.inr ⟨s, hmem, by simpa [hhk] using hlt⟩
      · rw [hstep, if_neg hc, ih last fired hrest hid]
        constructor
        · rintro (hf | ⟨s, hs, hlt⟩)
          · exact Or.inl hf
          · exact Or.inr ⟨s, List.mem_cons_of_mem _ hs, hlt⟩
        · rintro (hf | ⟨s, hs, hlt⟩)
          · exact Or.inl hf
          · rcases List.mem_cons.mp hs with heq | hmem
            · have h1 : hid = k := congrArg Prod.fst heq
              have h2 : some s = some s0 := congrArg Prod.snd heq
              subst h1
              rw [Option.some_inj.mp h2] at hlt
              exact absurd hlt hc
            · exact Or.inr ⟨s, hmem, hlt⟩

/-- C9 counterexample: a handler configured with a 1-second interval whose
last trigger was at 0 does not fire on the tick at time 1000 — the exact
boundary where now minus last_triggered_at equals the interval — because the
code compares with strict greater-than, while the claim predicts firing at
the boundary; the gap condition claimed (greater-or-equal) holds here. -/
theorem interval_trigger_boundary_does_not_fire :
    (tick [("h1", some 1)] (fun _ => 0) 1000).2 = [] ∧
    ((1000 - (0 : Int) : Int) : ℚ) ≥ (1 : ℚ) * 1000 := by
  constructor
  · norm_num [tick, tick_go]
  · norm_num

/-- C9 amended: on a scheduler tick over handlers with distinct ids, a
handler's interval trigger fires exactly when it has a configured
check_interval and now minus last_triggered_at is strictly greater than the
interval (so nothing fires at the exact boundary), and a handler with no
interval configured never fires. -/
theorem interval_trigger_fires_iff_strictly_late
    (cis : List (String × Option ℚ)) (last : String → Int) (time_ms : Int)
    (hnd : (cis.map Prod.fst).Nodup) (hid : String) :
    hid ∈ (tick cis last time_ms).2 ↔
      ∃ s, (hid, some s) ∈ cis ∧ ((time_ms - last hid : Int) : ℚ) > s * 1000 := by
  rw [tick, tick_go_mem time_ms cis last [] hnd hid]
  simp

/-- Witness for interval_trigger_fires_iff_strictly_late: two handlers, one
with a 1-second interval and one unconfigured, ticked at time 2000 with both
last-trigger times 0; h1 fires (2000 over the 1000 ms interval), h2 does
not. -/
theorem interval_trigger_fires_iff_strictly_late_witness :
    ((([("h1", some 1), ("h2", none)] : List (String × Option ℚ)).map Prod.fst).Nodup ∧
      ("h1" ∈ (tick [("h1", some 1), ("h2", none)] (fun _ => 0) 2000).2 ↔
        ∃ s, (("h1", some s) : String × Option ℚ) ∈
            ([("h1", some 1), ("h2", none)] : List (String × Option ℚ)) ∧
          ((2000 - (fun _ => (0 : Int)) "h1" : Int) : ℚ) > s * 1000)) ∧
    ("h2" ∈ (tick [("h1", some 1), ("h2", none)] (fun _ => 0) 2000).2 ↔
      ∃ s, (("h2", some s) : String × Option ℚ) ∈
          ([("h1", some 1), ("h2", none)] : List (String × Option ℚ)) ∧
        ((2000 - (fun _ => (0 : Int)) "h2" : Int) : ℚ) > s * 1000) :=
  ⟨⟨by decide,
    interval_trigger_fires_iff_strictly_late [("h1", some 1), ("h2", none)] (fun _ => 0) 2000
      (by decide) "h1"⟩,
    interval_trigger_fires_iff_strictly_late [("h1", some 1), ("h2", none)] (fun _ => 0) 2000
      (by decide) "h2"⟩

/-- One observation of the file-stability poll: whether open(file_path)
succeeded and the size reported by stat. -/
structure Poll where
  can_open : Bool
  size : Int
deriving DecidableEq, Repr

/-- Outcome of the stability loop on a finite prefix of observations:
triggered records that control fell through to step 2 (the handler trigger)
after consuming the given number of polls, flagging whether the loop was left
through the open-failure break; still_waiting means the loop was still
polling when the observations ran out. -/
inductive WatchResult where
  | triggered (polls_consumed : Nat) (via_open_failure : Bool)
  | still_waiting
deriving DecidableEq, Repr

/-- Stability loop of start_file_trigger_watch (input_handler_manager.py
lines 158-180): last_size starts at 0 and size_stable at False; the while
condition short-circuits, so the otherwise-uninitialized can_open is never
read on the first check. Each iteration attempts to open the file — an
exception executes break, which leaves the loop and falls through to the
handler trigger of step 2 — then compares the stat size with last_size,
marking the file stable when unchanged and recording the new size
otherwise. -/
def file_watch_loop : List Poll → Int → Bool → Bool → WatchResult
  | polls, last_size, size_stable, can_open =>
    if size_stable && can_open then .triggered 0 false
    else
      match polls with
      | [] => .still_waiting
      | p :: rest =>
        if !p.can_open then .triggered 1 true
        else
          let (size_stable, last_size) :=
            if p.size = last_size then (true, last_size) else (size_stable, p.size)
          match file_watch_loop rest last_size size_stable true with
          | .triggered n b => .triggered (n + 1) b
          | .still_waiting => .still_waiting

/-- Entry point of the stability watch (lines 159-160): last_size = 0,
size_stable = False, can_open unset (never read before assignment thanks to
short-circuit evaluation). -/
def start_file_trigger_watch (polls : List Poll) : WatchResult :=
  file_watch_loop polls 0 false false

/-- Step 2 of start_file_trigger_watch (lines 182-191): the handler trigger
is wrapped in try/except — an exception is recorded in the trigger error log,
not propagated — and the file is unlinked afterwards in every case. Returns
(error_recorded, file_deleted). -/
def file_watch_after_trigger (handler_raises : Bool) : Bool × Bool :=
  (handler_raises, true)

/-- C10 (code bug, evaluated at the failing input): a file whose open attempt
fails triggers the handler immediately — the break leaves the stability loop
and control falls through to step 2 — although no poll ever observed the file
stable and openable, contradicting the stability gate the claim describes
(and the code's own log line, which reports the file as stable on that path).
The remaining conjuncts record the true parts: a stable openable file
triggers after the size-unchanged poll, a file whose size keeps changing
between polls does not trigger, and the file is deleted whether or not the
handler raised. -/
theorem unopenable_file_still_triggers_handler :
    start_file_trigger_watch [⟨false, 7⟩] = .triggered 1 true ∧
    start_file_trigger_watch [⟨true, 5⟩, ⟨true, 5⟩] = .triggered 2 false ∧
    start_file_trigger_watch [⟨true, 5⟩, ⟨true, 9⟩] = .still_waiting ∧
    start_file_trigger_watch [⟨true, 5⟩, ⟨true, 9⟩, ⟨true, 13⟩] = .still_waiting ∧
    (file_watch_after_trigger true).2 = true ∧
    (file_watch_after_trigger false).2 = true := by
  decide

end JServer
